import Mathlib

/-
Verification of the f1-bot data-retrieval and ranking core.

Shallow embedding of `f1/utils.py` and `f1/api.py`.  Python dicts with a
fixed key set are embedded as Lean structures; XML payloads already parsed
by BeautifulSoup are embedded as typed records (numeric attributes are held
as `Nat`, modelling the `int(...)` coercions on well-formed payloads); a
`fetch` that may yield `None` is an `Option` payload argument; raised
exceptions are the `Except.error` channel.  Python string identity checks
(`is`) on interned literal constants are embedded as string equality; the
theorems below only exercise them on values where identity and equality
agree (distinct string values are never identical objects).
-/

/-- Exceptions that the embedded code can raise. -/
inductive PyErr where
  | missingData
  | driverNotFound
  | typeError
  | indexError
deriving DecidableEq, Repr

/-- Distinguishes a normal return value from a `MissingDataError` *object*
returned (not raised) by `return MissingDataError()` in the source. -/
inductive PyRet (α : Type) where
  | val : α → PyRet α
  | errObj : PyRet α
deriving DecidableEq, Repr

/-! ## utils.py -/

/-- Embeds `utils.age`: zero when the year of birth is in the future. -/
def age (currentYear yob : Nat) : Nat :=
  if currentYear < yob then 0 else currentYear - yob

/-- Month number to three-letter abbreviation, as produced by `strftime` `%b`. -/
def monthAbbrev : Nat → String
  | 1 => "Jan" | 2 => "Feb" | 3 => "Mar" | 4 => "Apr" | 5 => "May" | 6 => "Jun"
  | 7 => "Jul" | 8 => "Aug" | 9 => "Sep" | 10 => "Oct" | 11 => "Nov" | 12 => "Dec"
  | _ => ""

/-- Embeds `utils.date_parser`: `YYYY-MM-DD` to `DD Mon` (well-formed input). -/
def format_date (s : String) : String :=
  let parts := s.splitOn "-"
  (parts.getD 2 "") ++ " " ++ monthAbbrev ((parts.getD 1 "").toNat?.getD 0)

/-- Embeds `utils.time_parser`: `HH:MM:SSZ` to `HH:MM UTC` (well-formed input). -/
def format_time (s : String) : String :=
  s.take 5 ++ " UTC"

/-- ASCII lower-casing of one character. -/
def lowerChar (c : Char) : Char :=
  if 65 ≤ c.toNat ∧ c.toNat ≤ 90 then Char.ofNat (c.toNat + 32) else c

/-- Embeds Python `str.casefold` on the ASCII identifiers this data uses. -/
def caseFold (s : String) : String := String.mk (s.toList.map lowerChar)

/-- A record of the Ergast drivers dataset, with the fields (and the
`d.values()` iteration order) of the provider JSON. -/
structure DriverEntry where
  driverId : String
  permanentNumber : String
  code : String
  url : String
  givenName : String
  familyName : String
  dateOfBirth : String
  nationality : String
deriving DecidableEq, Repr

/-- Embeds `d.values()` for a `DriverEntry`, in dict insertion order. -/
def DriverEntry.values (d : DriverEntry) : List String :=
  [d.driverId, d.permanentNumber, d.code, d.url, d.givenName, d.familyName,
   d.dateOfBirth, d.nationality]

/-- Embeds `utils.find_driver`: returns the first entry any of whose values
casefold-matches the identifier, raising `DriverNotFoundError` otherwise. -/
def find_driver (id : String) : List DriverEntry → Except PyErr DriverEntry
  | [] => .error .driverNotFound
  | d :: rest =>
      if d.values.any (fun v => caseFold v = caseFold id) then .ok d
      else find_driver id rest

/-- Whether the first character list starts the second. -/
def chStart : List Char → List Char → Bool
  | [], _ => true
  | _ :: _, [] => false
  | a :: as, b :: bs => a = b && chStart as bs

/-- Whether the first character list occurs contiguously in the second. -/
def chContain (needle : List Char) : List Char → Bool
  | [] => chStart needle []
  | b :: bs => chStart needle (b :: bs) || chContain needle bs

/-- Embeds Python substring containment `needle in hay` for strings. -/
def pyInStr (needle hay : String) : Bool :=
  chContain needle.toList hay.toList

/-- Embeds the Python slice `l[i:]` with a possibly negative start index:
a negative start counts from the end, clamped at 0. -/
def pyDropFrom (l : List α) (i : Int) : List α :=
  if i < 0 then l.drop (l.length - min l.length i.natAbs)
  else l.drop i.toNat

/-- Embeds `utils.filter_times`.  The argument order and branch structure
follow the source: equality tests against `slowest` and `fastest`, then
containment tests `top in filter` and `bottom in filter`.  A `none` filter
reaches the containment test, where Python raises `TypeError`; an empty
list raises `IndexError` at the single-element indexing. -/
def filter_times (sorted_times : List α) (filter : Option String) :
    Except PyErr (List α) :=
  if filter = some "slowest" then
    match sorted_times.getLast? with
    | some x => .ok [x]
    | none => .error .indexError
  else if filter = some "fastest" then
    match sorted_times.head? with
    | some x => .ok [x]
    | none => .error .indexError
  else
    match filter with
    | none => .error .typeError
    | some f =>
        if pyInStr "top" f then .ok (sorted_times.take 5)
        else if pyInStr "bottom" f then
          .ok (pyDropFrom sorted_times ((sorted_times.length : Int) - 5))
        else .ok sorted_times

/-- A timing dict as consumed by `utils.keep_fastest`: the `Driver` field
plus the remaining (numeric) fields indexed by key. -/
structure Timing where
  driver : String
  fields : String → Int

/-- Assoc-list lookup embedding `d[...] in seen` / `seen[k]` on a dict. -/
def getSeen (seen : List (String × Timing)) (k : String) : Option Timing :=
  match seen with
  | [] => none
  | (k', v) :: rest => if k' = k then some v else getSeen rest k

/-- Embeds the dict assignment `seen[k] = v`: replaces in place when the key
exists (keeping its position), appends otherwise. -/
def setItem (seen : List (String × Timing)) (k : String) (v : Timing) :
    List (String × Timing) :=
  match seen with
  | [] => [(k, v)]
  | (k', v') :: rest =>
      if k' = k then (k, v) :: rest else (k', v') :: setItem rest k v

/-- One iteration of the `utils.keep_fastest` loop. -/
def keep_fastest_step (key : String) (seen : List (String × Timing))
    (d : Timing) : List (String × Timing) :=
  match getSeen seen d.driver with
  | none => setItem seen d.driver d
  | some e => if d.fields key < e.fields key then setItem seen d.driver d else seen

/-- Embeds `utils.keep_fastest`: folds the entries through an insertion-order
dict keyed by driver and returns `list(seen.values())`. -/
def keep_fastest (lst : List Timing) (key : String) : List Timing :=
  (lst.foldl (keep_fastest_step key) []).map Prod.snd

/-! ## api.py — payload and result shapes -/

/-- A fastest-lap timing row as produced by `api.get_race_results`. -/
structure FastestLap where
  Rank : Nat
  Driver : String
  Time : String
  Speed : Nat
deriving DecidableEq, Repr

/-- Stable insertion of a lap row into a rank-sorted list: a row goes in
front of the first strictly-higher rank, after equal ranks. -/
def insertByRank (x : FastestLap) : List FastestLap → List FastestLap
  | [] => [x]
  | y :: ys => if x.Rank ≤ y.Rank then x :: y :: ys else y :: insertByRank x ys

/-- Embeds `sorted(timings, key=itemgetter(Rank))`: a stable sort by rank
(stable sorting by a key determines the output uniquely, so insertion sort
is an exact model of Python sorted). -/
def sortByRank (l : List FastestLap) : List FastestLap :=
  l.foldr insertByRank []

/-- The two return shapes of `api.rank_best_lap_times`: a bare element for
the single-time filters, a list otherwise. -/
inductive LapsFilterResult where
  | single : FastestLap → LapsFilterResult
  | many : List FastestLap → LapsFilterResult
deriving DecidableEq, Repr

/-- Embeds the legacy `api.rank_best_lap_times`: sorts the `timings` of the
argument by rank, then dispatches on the filter with identity comparisons
against the four mode constants (embedded as equality, which agrees with
CPython identity on these interned literals and on any value-distinct
string). -/
def rank_best_lap_times (timings : List FastestLap) (filter : Option String) :
    Except PyErr LapsFilterResult :=
  if filter = some "slowest" then
    match (sortByRank timings).getLast? with
    | some x => .ok (.single x)
    | none => .error .indexError
  else if filter = some "fastest" then
    match (sortByRank timings).head? with
    | some x => .ok (.single x)
    | none => .error .indexError
  else if filter = some "top" then .ok (.many ((sortByRank timings).take 5))
  else if filter = some "bottom" then
    .ok (.many (pyDropFrom (sortByRank timings)
                 (((sortByRank timings).length : Int) - 5)))
  else .ok (.many (sortByRank timings))

/-! ## api.py — XML payload records (the parsed soup, typed) -/

/-- The `<driver>` element fetched by `get_driver_info`.  `yearOfBirth`
holds `int(driver.dateofbirth.string[:4])` for a well-formed payload. -/
structure DriverXml where
  givenname : String
  familyname : String
  code : String
  driverid : String
  url : String
  permanentnumber : String
  yearOfBirth : Nat
  nationality : String
deriving DecidableEq, Repr

/-- One `<driverstanding>` element. -/
structure DriverStandingXml where
  position : Nat
  driverCode : String
  points : Nat
  wins : Nat
deriving DecidableEq, Repr

/-- The `<standingslist>` element for driver standings. -/
structure StandingsXml where
  season : String
  round : String
  standings : List DriverStandingXml
deriving DecidableEq, Repr

/-- One `<constructorstanding>` element. -/
structure TeamStandingXml where
  position : Nat
  teamName : String
  points : Nat
  wins : Nat
deriving DecidableEq, Repr

/-- The `<standingslist>` element for constructor standings. -/
structure TeamStandingsXml where
  season : String
  round : String
  standings : List TeamStandingXml
deriving DecidableEq, Repr

/-- The `<fastestlap>` child of a race result.  `averagespeed` holds
`int(float(averagespeed.string))`. -/
structure FastestLapXml where
  rank : Nat
  time : String
  averagespeed : Nat
deriving DecidableEq, Repr

/-- One `<result>` element of a race results payload.  `finishTime` is the
sibling `<time>` tag, absent on DNF; `fastestlap` is absent when the driver
set no timed lap. -/
structure ResultXml where
  position : Nat
  givenname : String
  familyname : String
  code : String
  teamName : String
  laps : Nat
  grid : Nat
  finishTime : Option String
  status : String
  points : Nat
  fastestlap : Option FastestLapXml
deriving DecidableEq, Repr

/-- The `<race>` element of a race results payload. -/
structure RaceXml where
  season : String
  round : String
  racename : String
  url : String
  date : String
  time : String
  results : List ResultXml
deriving DecidableEq, Repr

/-- One `<qualifyingresult>` element; Q1/Q2/Q3 independently optional. -/
structure QualifyingResultXml where
  position : Nat
  driverCode : String
  teamName : String
  q1 : Option String
  q2 : Option String
  q3 : Option String
deriving DecidableEq, Repr

/-- The `<race>` element of a qualifying payload. -/
structure QualiRaceXml where
  season : String
  round : String
  racename : String
  url : String
  date : String
  time : String
  results : List QualifyingResultXml
deriving DecidableEq, Repr

/-- One `<race>` element of the wins payload (with its single result). -/
structure WinRaceXml where
  racename : String
  circuitname : String
  date : String
  teamName : String
  grid : Nat
  laps : Nat
  time : String
deriving DecidableEq, Repr

/-- The wins payload: `MRData` total plus the race list. -/
structure WinsXml where
  total : Nat
  races : List WinRaceXml
deriving DecidableEq, Repr

/-- One `<race>` element of the poles payload (with its qualifying result;
the source reads `q1.string` etc. directly, so the tags are present). -/
structure PoleRaceXml where
  racename : String
  circuitname : String
  date : String
  teamName : String
  q1 : String
  q2 : String
  q3 : String
deriving DecidableEq, Repr

/-- The poles payload: `MRData` total plus the race list. -/
structure PolesXml where
  total : Nat
  races : List PoleRaceXml
deriving DecidableEq, Repr

/-- One `<standingslist>` element of the championships payload. -/
structure ChampStandingXml where
  season : String
  points : Nat
  wins : Nat
  teamName : String
deriving DecidableEq, Repr

/-- The championships payload. -/
structure ChampsXml where
  total : Nat
  standings : List ChampStandingXml
deriving DecidableEq, Repr

/-- One `<standingslist>` element of the seasons payload. -/
structure SeasonStandingXml where
  season : String
  position : Nat
  teamName : String
deriving DecidableEq, Repr

/-- The seasons payload. -/
structure SeasonsXml where
  total : Nat
  standings : List SeasonStandingXml
deriving DecidableEq, Repr

/-- The constructors payload used by `get_driver_teams`. -/
structure TeamsXml where
  total : Nat
  names : List String
deriving DecidableEq, Repr

/-! ## api.py — result records -/

/-- Result dict of `get_driver_info`. -/
structure DriverInfo where
  firstname : String
  surname : String
  code : String
  id : String
  url : String
  number : String
  age : Nat
  nationality : String
deriving DecidableEq, Repr

/-- One row of `get_driver_standings` data. -/
structure StandRow where
  Pos : Nat
  Driver : String
  Points : Nat
  Wins : Nat
deriving DecidableEq, Repr

/-- Result dict of `get_driver_standings`. -/
structure StandingsRes where
  season : String
  round : String
  data : List StandRow
deriving DecidableEq, Repr

/-- One row of `get_team_standings` data. -/
structure TeamStandRow where
  Pos : Nat
  Team : String
  Points : Nat
  Wins : Nat
deriving DecidableEq, Repr

/-- Result dict of `get_team_standings`. -/
structure TeamStandingsRes where
  season : String
  round : String
  data : List TeamStandRow
deriving DecidableEq, Repr

/-- One row of `get_race_results` data; `Time` is `None` on DNF. -/
structure RaceEntry where
  Pos : Nat
  Driver : String
  Team : String
  Laps : Nat
  Start : Nat
  Time : Option String
  Status : String
  Points : Nat
deriving DecidableEq, Repr

/-- Result dict of `get_race_results`. -/
structure RaceResults where
  season : String
  round : String
  race : String
  url : String
  date : String
  time : String
  data : List RaceEntry
  timings : List FastestLap
deriving DecidableEq, Repr

/-- One row of `get_qualifying_results` data. -/
structure QualiRow where
  Pos : Nat
  Driver : String
  Team : String
  Q1 : Option String
  Q2 : Option String
  Q3 : Option String
deriving DecidableEq, Repr

/-- Result dict of `get_qualifying_results`. -/
structure QualiRes where
  season : String
  round : String
  race : String
  url : String
  date : String
  time : String
  data : List QualiRow
deriving DecidableEq, Repr

/-- One row of `get_driver_wins` data. -/
structure WinRow where
  Race : String
  Circuit : String
  Date : String
  Team : String
  Grid : Nat
  Laps : Nat
  Time : String
deriving DecidableEq, Repr

/-- Result dict of `get_driver_wins`. -/
structure WinsRes where
  total : Nat
  driver : DriverInfo
  data : List WinRow
deriving DecidableEq, Repr

/-- One row of `get_driver_poles` data. -/
structure PoleRow where
  Race : String
  Circuit : String
  Date : String
  Team : String
  Q1 : String
  Q2 : String
  Q3 : String
deriving DecidableEq, Repr

/-- Result dict of `get_driver_poles`. -/
structure PolesRes where
  total : Nat
  driver : DriverInfo
  data : List PoleRow
deriving DecidableEq, Repr

/-- One row of `get_driver_championships` data. -/
structure ChampRow where
  Season : String
  Points : Nat
  Wins : Nat
  Team : String
deriving DecidableEq, Repr

/-- Result dict of `get_driver_championships`. -/
structure ChampsRes where
  total : Nat
  driver : DriverInfo
  data : List ChampRow
deriving DecidableEq, Repr

/-- One row of `get_driver_seasons` data. -/
structure SeasonRow where
  Season : String
  Pos : Nat
  Team : String
deriving DecidableEq, Repr

/-- Result dict of `get_driver_seasons`. -/
structure SeasonsRes where
  total : Nat
  data : List SeasonRow
deriving DecidableEq, Repr

/-- Result dict of `get_driver_teams`. -/
structure TeamsRes where
  total : Nat
  names : List String
deriving DecidableEq, Repr

/-- A total/years pair inside the career aggregate. -/
structure CareerTotals where
  total : Nat
  years : List String
deriving DecidableEq, Repr

/-- Result dict of `get_driver_career`. -/
structure CareerRes where
  driver : DriverInfo
  wins : Nat
  poles : Nat
  championships : CareerTotals
  seasons : CareerTotals
  teams : TeamsRes
deriving DecidableEq, Repr

/-! ## api.py — domain queries

Each function takes the `Option` payload its `fetch` produced (`none`
models a `None` response, for which `get_soup` returns `None`); functions
that internally call `get_driver_info` additionally take that nested fetch
payload.  `currentYear` threads `utils.current_year()` for the age
computation. -/

/-- Embeds `api.get_driver_info`. -/
def get_driver_info (currentYear : Nat) (payload : Option DriverXml) :
    Except PyErr DriverInfo :=
  match payload with
  | some driver =>
      .ok { firstname := driver.givenname, surname := driver.familyname,
            code := driver.code, id := driver.driverid, url := driver.url,
            number := driver.permanentnumber,
            age := age currentYear driver.yearOfBirth,
            nationality := driver.nationality }
  | none => .error .missingData

/-- Embeds `api.get_driver_standings`. -/
def get_driver_standings (payload : Option StandingsXml) :
    Except PyErr StandingsRes :=
  match payload with
  | some soup =>
      .ok { season := soup.season, round := soup.round,
            data := soup.standings.map (fun s =>
              { Pos := s.position, Driver := s.driverCode,
                Points := s.points, Wins := s.wins }) }
  | none => .error .missingData

/-- Embeds `api.get_team_standings`. -/
def get_team_standings (payload : Option TeamStandingsXml) :
    Except PyErr TeamStandingsRes :=
  match payload with
  | some soup =>
      .ok { season := soup.season, round := soup.round,
            data := soup.standings.map (fun s =>
              { Pos := s.position, Team := s.teamName,
                Points := s.points, Wins := s.wins }) }
  | none => .error .missingData

/-- The loop body of `get_race_results` building one `data` row. -/
def raceEntryOfResult (r : ResultXml) : RaceEntry :=
  { Pos := r.position, Driver := r.givenname ++ " " ++ r.familyname,
    Team := r.teamName, Laps := r.laps, Start := r.grid,
    Time := r.finishTime, Status := r.status, Points := r.points }

/-- The loop body of `get_race_results` building one `timings` row, when
the result carries a `<fastestlap>`. -/
def timingOfResult (r : ResultXml) : Option FastestLap :=
  r.fastestlap.map (fun fl =>
    { Rank := fl.rank, Driver := r.code, Time := fl.time,
      Speed := fl.averagespeed })

/-- Embeds `api.get_race_results`: hoists the race attributes and builds
the `data` and `timings` rows in one pass over the results, in payload
order (no re-sorting of `timings`). -/
def get_race_results (payload : Option RaceXml) : Except PyErr RaceResults :=
  match payload with
  | some race =>
      .ok { season := race.season, round := race.round,
            race := race.racename, url := race.url,
            date := format_date race.date ++ " " ++ race.season,
            time := format_time race.time,
            data := race.results.map raceEntryOfResult,
            timings := race.results.filterMap timingOfResult }
  | none => .error .missingData

/-- Embeds `api.get_qualifying_results`. -/
def get_qualifying_results (payload : Option QualiRaceXml) :
    Except PyErr QualiRes :=
  match payload with
  | some race =>
      .ok { season := race.season, round := race.round,
            race := race.racename, url := race.url,
            date := format_date race.date ++ " " ++ race.season,
            time := format_time race.time,
            data := race.results.map (fun r =>
              { Pos := r.position, Driver := r.driverCode,
                Team := r.teamName, Q1 := r.q1, Q2 := r.q2, Q3 := r.q3 }) }
  | none => .error .missingData

/-- Embeds `api.get_driver_wins`.  On a missing payload the source executes
`return MissingDataError()` — the error object is the return value, nothing
is raised — embedded as `.ok .errObj`.  The nested `get_driver_info` call
can still raise. -/
def get_driver_wins (currentYear : Nat) (payload : Option WinsXml)
    (infoPayload : Option DriverXml) : Except PyErr (PyRet WinsRes) :=
  match payload with
  | some soup => do
      let info ← get_driver_info currentYear infoPayload
      .ok (.val { total := soup.total, driver := info,
                  data := soup.races.map (fun race =>
                    { Race := race.racename, Circuit := race.circuitname,
                      Date := format_date race.date, Team := race.teamName,
                      Grid := race.grid, Laps := race.laps,
                      Time := race.time }) })
  | none => .ok .errObj

/-- Embeds `api.get_driver_poles`; same `return MissingDataError()` slip as
`get_driver_wins`. -/
def get_driver_poles (currentYear : Nat) (payload : Option PolesXml)
    (infoPayload : Option DriverXml) : Except PyErr (PyRet PolesRes) :=
  match payload with
  | some soup => do
      let info ← get_driver_info currentYear infoPayload
      .ok (.val { total := soup.total, driver := info,
                  data := soup.races.map (fun race =>
                    { Race := race.racename, Circuit := race.circuitname,
                      Date := format_date race.date, Team := race.teamName,
                      Q1 := race.q1, Q2 := race.q2, Q3 := race.q3 }) })
  | none => .ok .errObj

/-- Embeds `api.get_driver_championships` (this one raises on a missing
payload). -/
def get_driver_championships (currentYear : Nat) (payload : Option ChampsXml)
    (infoPayload : Option DriverXml) : Except PyErr ChampsRes :=
  match payload with
  | some soup => do
      let info ← get_driver_info currentYear infoPayload
      .ok { total := soup.total, driver := info,
            data := soup.standings.map (fun s =>
              { Season := s.season, Points := s.points, Wins := s.wins,
                Team := s.teamName }) }
  | none => .error .missingData

/-- Embeds `api.get_driver_seasons` (raises on a missing payload). -/
def get_driver_seasons (payload : Option SeasonsXml) : Except PyErr SeasonsRes :=
  match payload with
  | some soup =>
      .ok { total := soup.total,
            data := soup.standings.map (fun s =>
              { Season := s.season, Pos := s.position, Team := s.teamName }) }
  | none => .error .missingData

/-- Embeds `api.get_driver_teams`; same `return MissingDataError()` slip as
`get_driver_wins`. -/
def get_driver_teams (payload : Option TeamsXml) : Except PyErr (PyRet TeamsRes) :=
  match payload with
  | some soup => .ok (.val { total := soup.total, names := soup.names })
  | none => .ok .errObj

/-- The fetch responses consumed by `get_driver_career` and its five
sub-queries.  The three nested `get_driver_info` calls hit the same URL, so
they share the one `info` payload. -/
structure FetchEnv where
  currentYear : Nat
  info : Option DriverXml
  wins : Option WinsXml
  poles : Option PolesXml
  champs : Option ChampsXml
  seasons : Option SeasonsXml
  teams : Option TeamsXml

/-- Embeds `api.get_driver_career`: gathers the five sub-queries (a raised
exception in any of them propagates and the composition never runs), then
composes the aggregate.  Subscripting a sub-result that is a returned
`MissingDataError` object raises `TypeError`, in the order the source
subscripts them. -/
def get_driver_career (env : FetchEnv) : Except PyErr CareerRes := do
  let wins ← get_driver_wins env.currentYear env.wins env.info
  let poles ← get_driver_poles env.currentYear env.poles env.info
  let champs ← get_driver_championships env.currentYear env.champs env.info
  let seasons ← get_driver_seasons env.seasons
  let teams ← get_driver_teams env.teams
  match wins, poles, teams with
  | .val w, .val p, .val t =>
      .ok { driver := w.driver, wins := w.total, poles := p.total,
            championships := { total := champs.total,
                               years := champs.data.map (fun x => x.Season) },
            seasons := { total := seasons.total,
                         years := seasons.data.map (fun x => x.Season) },
            teams := { total := t.total, names := t.names } }
  | .errObj, _, _ => .error .typeError
  | .val _, .errObj, _ => .error .typeError
  | .val _, .val _, .errObj => .error .typeError

/-! ## Derived predicates and concrete data for the claims -/

/-- Holds when the elements of the list strictly increase, starting
strictly above `prev`. -/
def strictChain : Nat → List Nat → Bool
  | _, [] => true
  | prev, r :: rest => prev < r && strictChain r rest

/-- The claim's sortedness shape: the first rank is 1 and each subsequent
rank is strictly greater than its predecessor (vacuously true when empty). -/
def strictFrom1 (ranks : List Nat) : Bool :=
  match ranks with
  | [] => true
  | r :: rest => r == 1 && strictChain r rest

/-- The fastest-lap ranks of a race payload, in result (document) order,
skipping results without a fastest lap. -/
def payloadFLRanks (race : RaceXml) : List Nat :=
  race.results.filterMap (fun r => r.fastestlap.map (fun fl => fl.rank))

/-- A driver entry in the shape of the Ergast drivers dataset. -/
def driverMax : DriverEntry :=
  { driverId := "max_verstappen", permanentNumber := "33", code := "VER",
    url := "http://en.wikipedia.org/wiki/Max_Verstappen", givenName := "Max",
    familyName := "Verstappen", dateOfBirth := "1997-09-30",
    nationality := "Dutch" }

/-- A driver list entry whose family name collides with another entry's
slug (the dataset is caller-supplied input, so such lists are reachable). -/
def driverElder : DriverEntry :=
  { driverId := "jos_verstappen", permanentNumber := "12", code := "JVE",
    url := "u1", givenName := "Jos", familyName := "Verstappen",
    dateOfBirth := "1972-03-04", nationality := "Dutch" }

/-- The entry whose slug equals `driverElder`'s family name (casefolded). -/
def driverYounger : DriverEntry :=
  { driverId := "verstappen", permanentNumber := "2", code := "VES",
    url := "u2", givenName := "Sebastian", familyName := "Montoya",
    dateOfBirth := "1975-01-01", nationality := "Dutch" }

/-- Race payload whose fastest-lap ranks arrive out of rank order: the
winner holds rank 2 and the runner-up rank 1. -/
def cexRace : RaceXml :=
  { season := "2017", round := "12", racename := "Belgian Grand Prix",
    url := "u", date := "2017-08-27", time := "13:00:00Z",
    results :=
      [ { position := 1, givenname := "Lewis", familyname := "Hamilton",
          code := "HAM", teamName := "Mercedes", laps := 44, grid := 1,
          finishTime := some "1:24:42.820", status := "Finished",
          points := 25, fastestlap := some { rank := 2, time := "1:53.717",
                                             averagespeed := 230 } },
        { position := 2, givenname := "Sebastian", familyname := "Vettel",
          code := "VET", teamName := "Ferrari", laps := 44, grid := 2,
          finishTime := some "1:24:45.153", status := "Finished",
          points := 18, fastestlap := some { rank := 1, time := "1:52.997",
                                             averagespeed := 232 } } ] }

/-- Race payload whose fastest-lap ranks arrive already in rank order. -/
def wRace : RaceXml :=
  { season := "2017", round := "12", racename := "Belgian Grand Prix",
    url := "u", date := "2017-08-27", time := "13:00:00Z",
    results :=
      [ { position := 1, givenname := "Lewis", familyname := "Hamilton",
          code := "HAM", teamName := "Mercedes", laps := 44, grid := 1,
          finishTime := some "1:24:42.820", status := "Finished",
          points := 25, fastestlap := some { rank := 1, time := "1:52.900",
                                             averagespeed := 233 } },
        { position := 2, givenname := "Sebastian", familyname := "Vettel",
          code := "VET", teamName := "Ferrari", laps := 44, grid := 2,
          finishTime := none, status := "Retired",
          points := 0, fastestlap := some { rank := 2, time := "1:52.997",
                                             averagespeed := 232 } } ] }

/-- A well-formed `<driver>` payload. -/
def wDriverXml : DriverXml :=
  { givenname := "Fernando", familyname := "Alonso", code := "ALO",
    driverid := "alonso", url := "u", permanentnumber := "14",
    yearOfBirth := 1981, nationality := "Spanish" }

/-- A well-formed wins payload. -/
def wWinsXml : WinsXml :=
  { total := 1,
    races := [ { racename := "Hungarian Grand Prix",
                 circuitname := "Hungaroring", date := "2003-08-24",
                 teamName := "Renault", grid := 1, laps := 70,
                 time := "1:39:01.460" } ] }

/-- A well-formed poles payload. -/
def wPolesXml : PolesXml :=
  { total := 1,
    races := [ { racename := "Hungarian Grand Prix",
                 circuitname := "Hungaroring", date := "2003-08-23",
                 teamName := "Renault", q1 := "1:21.000", q2 := "1:20.500",
                 q3 := "1:21.688" } ] }

/-- A well-formed seasons payload. -/
def wSeasonsXml : SeasonsXml :=
  { total := 1, standings := [ { season := "2003", position := 6,
                                 teamName := "Renault" } ] }

/-- A well-formed constructors payload. -/
def wTeamsXml : TeamsXml := { total := 1, names := ["Renault"] }

/-- A fetch environment for the career aggregate in which exactly one
sub-query (championships) sees a missing payload and so raises. -/
def wEnv : FetchEnv :=
  { currentYear := 2024, info := some wDriverXml, wins := some wWinsXml,
    poles := some wPolesXml, champs := none, seasons := some wSeasonsXml,
    teams := some wTeamsXml }

/-- Six rank-sorted fastest-lap rows. -/
def wTimings : List FastestLap :=
  [ { Rank := 1, Driver := "VET", Time := "1:20.0", Speed := 215 },
    { Rank := 2, Driver := "HAM", Time := "1:20.1", Speed := 214 },
    { Rank := 3, Driver := "BOT", Time := "1:20.2", Speed := 213 },
    { Rank := 4, Driver := "RAI", Time := "1:20.3", Speed := 212 },
    { Rank := 5, Driver := "VER", Time := "1:20.4", Speed := 211 },
    { Rank := 6, Driver := "OCO", Time := "1:20.5", Speed := 210 } ]

/-! ## Lemmas -/

/-- A filter string containing `top` reaches the containment branch and
takes the first five elements. -/
theorem filter_times_top5_eq (l : List α) :
    filter_times l (some "top5") = Except.ok (l.take 5) := by
  unfold filter_times
  rw [if_neg (by decide), if_neg (by decide)]
  exact if_pos (by decide)

/-- The legacy function matches `top5` against none of its four identity
constants and falls through to the full sorted sequence. -/
theorem rank_best_lap_times_top5_eq (ts : List FastestLap) :
    rank_best_lap_times ts (some "top5") =
      Except.ok (LapsFilterResult.many (sortByRank ts)) := by
  unfold rank_best_lap_times
  rw [if_neg (by decide), if_neg (by decide), if_neg (by decide),
      if_neg (by decide)]

/-- Inserting below every element of a list prepends. -/
theorem insertByRank_eq_cons (x : FastestLap) (l : List FastestLap)
    (h : ∀ y ∈ l, x.Rank ≤ y.Rank) : insertByRank x l = x :: l := by
  cases l with
  | nil => rfl
  | cons y ys => simp [insertByRank, h y (List.mem_cons_self y ys)]

/-- A stable sort of an already rank-sorted list is the identity. -/
theorem sortByRank_sorted_id (l : List FastestLap)
    (h : l.Pairwise (fun a b => a.Rank ≤ b.Rank)) : sortByRank l = l := by
  induction l with
  | nil => rfl
  | cons x xs ih =>
      have hx := (List.pairwise_cons.mp h).1
      have ih' := ih (List.pairwise_cons.mp h).2
      show insertByRank x (sortByRank xs) = x :: xs
      rw [ih']
      exact insertByRank_eq_cons x xs hx

/-! ## Claims -/

/-- Claim C3, counterexample: on a sorted 3-element sequence the `bottom`
filter does not return all 3 elements — the slice start `len - 5` is the
negative index `-2`, which Python counts from the end, yielding only the
last 2 elements. -/
theorem c3_counterexample :
    filter_times ([1, 2, 3] : List Nat) (some "bottom") = Except.ok [2, 3] ∧
    (Except.ok [2, 3] : Except PyErr (List Nat)) ≠ Except.ok [1, 2, 3] := by
  refine ⟨rfl, fun h => absurd (Except.ok.inj h) (by decide)⟩

/-- Claim C3, amended: `filter_times` on a sorted 3-element sequence with
`top` returns all 3 elements without error; with `bottom` it returns only
the last 2 elements, because the slice start `length - 5 = -2` is taken
from the end of the list (there is no `max(0, length - 5)` guard in the
code). -/
theorem c3_top_bottom_of_three (a b c : α) :
    filter_times [a, b, c] (some "top") = Except.ok [a, b, c] ∧
    filter_times [a, b, c] (some "bottom") = Except.ok [b, c] := by
  exact ⟨rfl, rfl⟩

/-- Claim C5: called with no filter (`None`), `filter_times` does not
return the full sequence — evaluation reaches the containment test
`top in filter`, which raises `TypeError` on `None`, contradicting the
function's own docstring. -/
theorem c5_none_filter_raises :
    filter_times ([1] : List Nat) none = Except.error PyErr.typeError := rfl

/-- Claim C9: on a non-empty sequence sorted ascending by the ranking key,
the `fastest` filter returns exactly one element, and that element is a
member whose key is a global minimum of the input. -/
theorem c9_fastest_returns_min {α : Type} (f : α → Nat) (ts : List α)
    (hsort : ts.Pairwise (fun x y => f x ≤ f y)) (hne : ts ≠ []) :
    ∃ x, filter_times ts (some "fastest") = Except.ok [x] ∧ x ∈ ts ∧
      ∀ y ∈ ts, f x ≤ f y := by
  cases ts with
  | nil => exact absurd rfl hne
  | cons a l =>
      refine ⟨a, rfl, List.mem_cons_self a l, ?_⟩
      intro y hy
      rcases List.mem_cons.mp hy with h | h
      · subst h; exact le_rfl
      · exact (List.pairwise_cons.mp hsort).1 y h

/-- Witness for C9 at a concrete sorted list. -/
theorem c9_fastest_returns_min_witness :
    ∃ x, filter_times ([3, 5] : List Nat) (some "fastest") = Except.ok [x] ∧
      x ∈ [3, 5] ∧ ∀ y ∈ [3, 5], x ≤ y :=
  c9_fastest_returns_min (fun n => n) [3, 5] (by decide) (by decide)

/-- Claim C6: the newer `utils.filter_times` (containment `in`) and the
legacy `api.rank_best_lap_times` (identity `is`) disagree on the
non-exact filter string `top5`: on the same rank-sorted sequence of at
least 6 rows, the newer function returns the first 5 rows while the legacy
function matches no mode and returns the full sequence. -/
theorem c6_filters_disagree_on_top5 (ts : List FastestLap)
    (hsort : ts.Pairwise (fun a b => a.Rank ≤ b.Rank)) (hlen : 6 ≤ ts.length) :
    filter_times ts (some "top5") = Except.ok (ts.take 5) ∧
    rank_best_lap_times ts (some "top5") =
      Except.ok (LapsFilterResult.many ts) ∧
    ts.take 5 ≠ ts := by
  refine ⟨filter_times_top5_eq ts, ?_, ?_⟩
  · rw [rank_best_lap_times_top5_eq, sortByRank_sorted_id ts hsort]
  · intro h
    have hc := congrArg List.length h
    simp [List.length_take] at hc
    omega

/-- Witness for C6 at a concrete 6-row sorted timing list. -/
theorem c6_filters_disagree_on_top5_witness :
    filter_times wTimings (some "top5") = Except.ok (wTimings.take 5) ∧
    rank_best_lap_times wTimings (some "top5") =
      Except.ok (LapsFilterResult.many wTimings) ∧
    wTimings.take 5 ≠ wTimings :=
  c6_filters_disagree_on_top5 wTimings (by decide) (by decide)

/-- A dict lookup misses exactly when the key is absent. -/
theorem getSeen_eq_none (seen : List (String × Timing)) (k : String) :
    getSeen seen k = none ↔ k ∉ seen.map Prod.fst := by
  induction seen with
  | nil => simp [getSeen]
  | cons p rest ih =>
      obtain ⟨k', v⟩ := p
      by_cases h : k' = k
      · subst h; simp [getSeen]
      · have hstep : getSeen ((k', v) :: rest) k = getSeen rest k := by
          simp [getSeen, h]
        rw [hstep, ih]
        simp only [List.map_cons, List.mem_cons]
        constructor
        · intro hk hh
          rcases hh with hh | hh
          · exact h hh.symm
          · exact hk hh
        · intro hk hh
          exact hk (Or.inr hh)

/-- Assigning a fresh key appends the pair. -/
theorem setItem_of_not_mem (seen : List (String × Timing)) (k : String)
    (v : Timing) (h : k ∉ seen.map Prod.fst) :
    setItem seen k v = seen ++ [(k, v)] := by
  induction seen with
  | nil => rfl
  | cons p rest ih =>
      obtain ⟨k', v'⟩ := p
      simp only [List.map_cons, List.mem_cons] at h
      push_neg at h
      have hne : ¬ k' = k := fun hh => h.1 hh.symm
      simp [setItem, hne, ih h.2]

/-- Assigning an existing key keeps the key sequence unchanged. -/
theorem setItem_keys_of_mem (seen : List (String × Timing)) (k : String)
    (v : Timing) (h : k ∈ seen.map Prod.fst) :
    (setItem seen k v).map Prod.fst = seen.map Prod.fst := by
  induction seen with
  | nil => simp at h
  | cons p rest ih =>
      obtain ⟨k', v'⟩ := p
      by_cases hk : k' = k
      · subst hk; simp [setItem]
      · simp only [List.map_cons, List.mem_cons] at h
        rcases h with h | h
        · exact absurd h.symm hk
        · simp [setItem, hk, ih h]

/-- Members after an assignment: the new pair or an old member. -/
theorem mem_setItem (seen : List (String × Timing)) (k : String) (v : Timing)
    (p : String × Timing) :
    p ∈ setItem seen k v → p = (k, v) ∨ p ∈ seen := by
  induction seen with
  | nil =>
      intro h
      exact Or.inl (List.mem_singleton.mp h)
  | cons q rest ih =>
      obtain ⟨k', v'⟩ := q
      intro h
      by_cases hk : k' = k
      · subst hk
        have hform : setItem ((k', v') :: rest) k' v = (k', v) :: rest := by
          simp [setItem]
        rw [hform] at h
        rcases List.mem_cons.mp h with h1 | h1
        · exact Or.inl h1
        · exact Or.inr (List.mem_cons_of_mem _ h1)
      · have hform : setItem ((k', v') :: rest) k v = (k', v') :: setItem rest k v := by
          simp [setItem, hk]
        rw [hform] at h
        rcases List.mem_cons.mp h with h1 | h1
        · exact Or.inr (h1 ▸ List.mem_cons_self _ _)
        · rcases ih h1 with h2 | h2
          · exact Or.inl h2
          · exact Or.inr (List.mem_cons_of_mem _ h2)

/-- One `keep_fastest` iteration preserves distinctness of the dict keys
and the fact that each stored entry's driver is its key. -/
theorem keep_fastest_step_preserves (key : String)
    (s : List (String × Timing)) (d : Timing)
    (hnd : (s.map Prod.fst).Nodup)
    (hcons : ∀ p ∈ s, (Prod.snd p).driver = p.1) :
    ((keep_fastest_step key s d).map Prod.fst).Nodup ∧
      ∀ p ∈ keep_fastest_step key s d, (Prod.snd p).driver = p.1 := by
  unfold keep_fastest_step
  cases hg : getSeen s d.driver with
  | none =>
      have hfresh : d.driver ∉ s.map Prod.fst := (getSeen_eq_none s d.driver).mp hg
      rw [setItem_of_not_mem s d.driver d hfresh]
      constructor
      · simp only [List.map_append, List.map_cons, List.map_nil]
        simp [List.nodup_append, hnd, hfresh]
      · intro p hp
        rcases List.mem_append.mp hp with h | h
        · exact hcons p h
        · simp only [List.mem_singleton] at h
          subst h; rfl
  | some e =>
      by_cases hlt : d.fields key < e.fields key
      · have hk : d.driver ∈ s.map Prod.fst := by
          by_contra hh
          rw [(getSeen_eq_none s d.driver).mpr hh] at hg
          cases hg
        simp only [if_pos hlt]
        constructor
        · rw [setItem_keys_of_mem s d.driver d hk]; exact hnd
        · intro p hp
          rcases mem_setItem s d.driver d p hp with h | h
          · subst h; rfl
          · exact hcons p h
      · simp only [if_neg hlt]
        exact ⟨hnd, hcons⟩

/-- The whole `keep_fastest` fold preserves the dict invariants. -/
theorem keep_fastest_foldl_preserves (key : String) (lst : List Timing)
    (s : List (String × Timing))
    (hnd : (s.map Prod.fst).Nodup)
    (hcons : ∀ p ∈ s, (Prod.snd p).driver = p.1) :
    ((lst.foldl (keep_fastest_step key) s).map Prod.fst).Nodup ∧
      ∀ p ∈ lst.foldl (keep_fastest_step key) s, (Prod.snd p).driver = p.1 := by
  induction lst generalizing s with
  | nil => exact ⟨hnd, hcons⟩
  | cons d rest ih =>
      have h := keep_fastest_step_preserves key s d hnd hcons
      exact ih (keep_fastest_step key s d) h.1 h.2

/-- The output of `keep_fastest` has pairwise-distinct drivers. -/
theorem keep_fastest_drivers_nodup (lst : List Timing) (key : String) :
    ((keep_fastest lst key).map Timing.driver).Nodup := by
  have h := keep_fastest_foldl_preserves key lst [] (by simp) (by simp)
  unfold keep_fastest
  rw [List.map_map]
  have hmap : List.map (Timing.driver ∘ Prod.snd)
      (lst.foldl (keep_fastest_step key) []) =
      List.map Prod.fst (lst.foldl (keep_fastest_step key) []) :=
    List.map_congr_left (fun p hp => h.2 p hp)
  rw [hmap]
  exact h.1

/-- Folding entries with pairwise-distinct drivers, all fresh for the
current dict, just appends their pairs in order. -/
theorem keep_fastest_foldl_of_fresh (key : String) (lst : List Timing)
    (s : List (String × Timing))
    (hnd : (lst.map Timing.driver).Nodup)
    (hdisj : ∀ d ∈ lst, d.driver ∉ s.map Prod.fst) :
    lst.foldl (keep_fastest_step key) s =
      s ++ lst.map (fun d => (d.driver, d)) := by
  induction lst generalizing s with
  | nil => simp
  | cons d rest ih =>
      have hfresh : d.driver ∉ s.map Prod.fst := hdisj d (List.mem_cons_self d rest)
      have hg : getSeen s d.driver = none := (getSeen_eq_none s d.driver).mpr hfresh
      have hstep : keep_fastest_step key s d = s ++ [(d.driver, d)] := by
        unfold keep_fastest_step
        rw [hg]
        exact setItem_of_not_mem s d.driver d hfresh
      simp only [List.map_cons, List.nodup_cons] at hnd
      have hrec := ih hnd.2 (s := s ++ [(d.driver, d)]) (fun x hx => by
        simp only [List.map_append, List.map_cons, List.map_nil,
          List.mem_append, List.mem_singleton]
        push_neg
        refine ⟨hdisj x (List.mem_cons_of_mem d hx), ?_⟩
        intro hxd
        exact hnd.1 (hxd ▸ List.mem_map_of_mem Timing.driver hx))
      show List.foldl (keep_fastest_step key) (keep_fastest_step key s d) rest = _
      rw [hstep, hrec]
      simp

/-- Claim C8: `keep_fastest` is idempotent — applying it twice equals
applying it once, for every entry list and every key. -/
theorem c8_keep_fastest_idempotent (lst : List Timing) (key : String) :
    keep_fastest (keep_fastest lst key) key = keep_fastest lst key := by
  have hnd := keep_fastest_drivers_nodup lst key
  show ((keep_fastest lst key).foldl (keep_fastest_step key) []).map Prod.snd = _
  rw [keep_fastest_foldl_of_fresh key (keep_fastest lst key) [] hnd (by simp)]
  simp only [List.nil_append, List.map_map]
  show List.map id (keep_fastest lst key) = keep_fastest lst key
  exact List.map_id _

/-- The function `find_driver` raises exactly when no entry has any casefold-matching
value. -/
theorem find_driver_error_iff (id : String) (drivers : List DriverEntry) :
    find_driver id drivers = Except.error PyErr.driverNotFound ↔
      ∀ d ∈ drivers, ∀ v ∈ d.values, caseFold v ≠ caseFold id := by
  induction drivers with
  | nil => simp [find_driver]
  | cons d rest ih =>
      by_cases hc : (d.values.any (fun v => caseFold v = caseFold id)) = true
      · have hf : find_driver id (d :: rest) = Except.ok d := by
          simp [find_driver, hc]
        rw [hf]
        constructor
        · intro h
          exact Except.noConfusion h
        · intro hall
          obtain ⟨v, hv, hveq⟩ := List.any_eq_true.mp hc
          exact absurd (of_decide_eq_true hveq)
            (hall d (List.mem_cons_self d rest) v hv)
      · have hf : find_driver id (d :: rest) = find_driver id rest := by
          simp [find_driver, hc]
        have hnone : ∀ v ∈ d.values, caseFold v ≠ caseFold id := by
          intro v hv hveq
          exact hc (List.any_eq_true.mpr ⟨v, hv, decide_eq_true hveq⟩)
        rw [hf, ih]
        constructor
        · intro hall d' hd' v hv
          rcases List.mem_cons.mp hd' with h1 | h1
          · subst h1; exact hnone v hv
          · exact hall d' h1 v hv
        · intro hall d' hd' v hv
          exact hall d' (List.mem_cons_of_mem d hd') v hv

/-- The function `find_driver` returns the first entry with a casefold-matching value. -/
theorem find_driver_of_first_match (id : String) (pre : List DriverEntry)
    (d : DriverEntry) (post : List DriverEntry)
    (hmatch : ∃ v ∈ d.values, caseFold v = caseFold id)
    (hpre : ∀ d' ∈ pre, ∀ v ∈ d'.values, caseFold v ≠ caseFold id) :
    find_driver id (pre ++ d :: post) = Except.ok d := by
  induction pre with
  | nil =>
      obtain ⟨v, hv, hveq⟩ := hmatch
      have hc : (d.values.any (fun v => caseFold v = caseFold id)) = true :=
        List.any_eq_true.mpr ⟨v, hv, decide_eq_true hveq⟩
      simp [find_driver, hc]
  | cons p ps ih =>
      have hcp : ¬ (p.values.any (fun v => caseFold v = caseFold id)) = true := by
        intro hc
        obtain ⟨v, hv, hveq⟩ := List.any_eq_true.mp hc
        exact hpre p (List.mem_cons_self p ps) v hv (of_decide_eq_true hveq)
      have hf : find_driver id ((p :: ps) ++ d :: post) =
          find_driver id (ps ++ d :: post) := by
        simp [find_driver, hcp]
      rw [hf]
      exact ih (fun d' hd' => hpre d' (List.mem_cons_of_mem p hd'))

/-- Claim C7, amended: `find_driver` matches the identifier casefolded
against every field value of each entry, returning the first entry with
any matching value.  Hence resolving a driver by slug, 3-letter code or
permanent number (in any letter case) yields that same entry provided no
earlier entry has a casefold-matching value in any field; and it fails
with `DriverNotFoundError` exactly when the identifier matches no field
value (not merely none of the three representations) of any entry. -/
theorem c7_find_driver_amended :
    (∀ id drivers, find_driver id drivers = Except.error PyErr.driverNotFound ↔
        ∀ d ∈ drivers, ∀ v ∈ d.values, caseFold v ≠ caseFold id) ∧
    (∀ id pre (d : DriverEntry) post,
        (caseFold id = caseFold d.driverId ∨ caseFold id = caseFold d.code ∨
          caseFold id = caseFold d.permanentNumber) →
        (∀ d' ∈ pre, ∀ v ∈ d'.values, caseFold v ≠ caseFold id) →
        find_driver id (pre ++ d :: post) = Except.ok d) := by
  refine ⟨find_driver_error_iff, ?_⟩
  intro id pre d post hrep hpre
  apply find_driver_of_first_match id pre d post ?_ hpre
  rcases hrep with h | h | h
  · exact ⟨d.driverId, by simp [DriverEntry.values], h.symm⟩
  · exact ⟨d.code, by simp [DriverEntry.values], h.symm⟩
  · exact ⟨d.permanentNumber, by simp [DriverEntry.values], h.symm⟩

/-- Witness for C7 amended: resolving by upper-case code succeeds on a
concrete entry; an identifier matching no field value raises. -/
theorem c7_find_driver_amended_witness :
    find_driver "VER" [driverMax] = Except.ok driverMax ∧
    find_driver "nobody" [driverMax] = Except.error PyErr.driverNotFound := by
  constructor
  · exact c7_find_driver_amended.2 "VER" [] driverMax []
      (Or.inr (Or.inl (by decide))) (by simp)
  · exact (c7_find_driver_amended.1 "nobody" [driverMax]).mpr (by decide)

/-- Claim C7, counterexample: with `driverYounger`'s slug equal
(casefolded) to `driverElder`'s family name, resolving that slug returns
`driverElder`, not `driverYounger`; and the identifier `Jos`, which is
none of the three representations of either entry, returns an entry
instead of raising `DriverNotFoundError`. -/
theorem c7_counterexample :
    find_driver "verstappen" [driverElder, driverYounger] =
      Except.ok driverElder ∧
    driverElder ≠ driverYounger ∧
    caseFold "verstappen" = caseFold driverYounger.driverId ∧
    find_driver "Jos" [driverElder, driverYounger] = Except.ok driverElder ∧
    caseFold "Jos" ≠ caseFold driverElder.driverId ∧
    caseFold "Jos" ≠ caseFold driverElder.code ∧
    caseFold "Jos" ≠ caseFold driverElder.permanentNumber ∧
    caseFold "Jos" ≠ caseFold driverYounger.driverId ∧
    caseFold "Jos" ≠ caseFold driverYounger.code ∧
    caseFold "Jos" ≠ caseFold driverYounger.permanentNumber := by
  refine ⟨rfl, by decide, by decide, rfl, by decide, by decide, by decide,
    by decide, by decide, by decide⟩

/-- Claim C10: `find_driver` matches against every field value, so an
identifier that is none of the three spec representations (here the family
name) still resolves to an entry instead of raising. -/
theorem c10_match_beyond_three_reps :
    find_driver "verstappen" [driverMax] = Except.ok driverMax ∧
    caseFold "verstappen" ≠ caseFold driverMax.driverId ∧
    caseFold "verstappen" ≠ caseFold driverMax.code ∧
    caseFold "verstappen" ≠ caseFold driverMax.permanentNumber := by
  refine ⟨rfl, by decide, by decide, by decide⟩

/-- Bind on a success value runs the continuation. -/
theorem except_bind_ok {α β : Type} (a : α) (f : α → Except PyErr β) :
    (Except.ok a >>= f) = f a := rfl

/-- Bind short-circuits on a raised error. -/
theorem except_bind_error {α β : Type} (e : PyErr) (f : α → Except PyErr β) :
    ((Except.error e : Except PyErr α) >>= f) = Except.error e := rfl

/-- The only exception `get_driver_info` raises is `MissingDataError`. -/
theorem get_driver_info_error (cy : Nat) (p : Option DriverXml) (e : PyErr)
    (h : get_driver_info cy p = Except.error e) : e = PyErr.missingData := by
  cases p with
  | none => exact (Except.error.inj h).symm
  | some d => exact Except.noConfusion h

/-- The only exception `get_driver_wins` raises is `MissingDataError`
(via its nested `get_driver_info`). -/
theorem get_driver_wins_error (cy : Nat) (p : Option WinsXml)
    (ip : Option DriverXml) (e : PyErr)
    (h : get_driver_wins cy p ip = Except.error e) : e = PyErr.missingData := by
  cases p with
  | none => exact Except.noConfusion h
  | some soup =>
      cases ip with
      | none => exact (Except.error.inj h).symm
      | some d => exact Except.noConfusion h

/-- The only exception `get_driver_poles` raises is `MissingDataError`. -/
theorem get_driver_poles_error (cy : Nat) (p : Option PolesXml)
    (ip : Option DriverXml) (e : PyErr)
    (h : get_driver_poles cy p ip = Except.error e) : e = PyErr.missingData := by
  cases p with
  | none => exact Except.noConfusion h
  | some soup =>
      cases ip with
      | none => exact (Except.error.inj h).symm
      | some d => exact Except.noConfusion h

/-- The only exception `get_driver_championships` raises is
`MissingDataError`. -/
theorem get_driver_championships_error (cy : Nat) (p : Option ChampsXml)
    (ip : Option DriverXml) (e : PyErr)
    (h : get_driver_championships cy p ip = Except.error e) :
    e = PyErr.missingData := by
  cases p with
  | none => exact (Except.error.inj h).symm
  | some soup =>
      cases ip with
      | none => exact (Except.error.inj h).symm
      | some d => exact Except.noConfusion h

/-- The only exception `get_driver_seasons` raises is `MissingDataError`. -/
theorem get_driver_seasons_error (p : Option SeasonsXml) (e : PyErr)
    (h : get_driver_seasons p = Except.error e) : e = PyErr.missingData := by
  cases p with
  | none => exact (Except.error.inj h).symm
  | some soup => exact Except.noConfusion h

/-- The function `get_driver_teams` never raises: a missing payload is returned as an
error object, not thrown. -/
theorem get_driver_teams_no_error (p : Option TeamsXml) (e : PyErr) :
    get_driver_teams p ≠ Except.error e := by
  cases p with
  | none => exact fun h => Except.noConfusion h
  | some soup => exact fun h => Except.noConfusion h

/-- Claim C1: on a missing provider payload, `get_driver_wins`,
`get_driver_poles` and `get_driver_teams` return a `MissingDataError`
*object* as their value (`return MissingDataError()` in the source) instead
of raising it as their docstrings state, while the other domain queries do
raise `MissingDataError`. -/
theorem c1_missing_payload_behaviour :
    get_driver_wins 2024 none none = Except.ok PyRet.errObj ∧
    get_driver_poles 2024 none none = Except.ok PyRet.errObj ∧
    get_driver_teams none = Except.ok PyRet.errObj ∧
    get_driver_info 2024 none = Except.error PyErr.missingData ∧
    get_driver_standings none = Except.error PyErr.missingData ∧
    get_team_standings none = Except.error PyErr.missingData ∧
    get_race_results none = Except.error PyErr.missingData ∧
    get_qualifying_results none = Except.error PyErr.missingData ∧
    get_driver_championships 2024 none none = Except.error PyErr.missingData ∧
    get_driver_seasons none = Except.error PyErr.missingData :=
  ⟨rfl, rfl, rfl, rfl, rfl, rfl, rfl, rfl, rfl, rfl⟩

/-- The output timings carry exactly the payload's fastest-lap ranks, in
result order. -/
theorem get_race_results_timings_ranks (race : RaceXml) :
    (race.results.filterMap timingOfResult).map FastestLap.Rank =
      payloadFLRanks race := by
  rw [List.map_filterMap]
  unfold payloadFLRanks
  have hfun : (fun r => (timingOfResult r).map FastestLap.Rank) =
      (fun r : ResultXml => r.fastestlap.map (fun fl => fl.rank)) := by
    funext r
    unfold timingOfResult
    cases r.fastestlap <;> rfl
  rw [hfun]

/-- Claim C2, amended: for every payload, `get_race_results` returns one
fully-populated `data` row per payload result (so no required field is
missing), and a `timings` row per result having a fastest lap, in result
order with ranks copied unchanged from the payload — the code does not
re-sort them, so the strictly-ascending-from-1 shape holds exactly when
the payload's fastest-lap ranks already arrive in that shape. -/
theorem c2_race_results_amended (race : RaceXml)
    (h : strictFrom1 (payloadFLRanks race) = true) :
    ∃ res, get_race_results (some race) = Except.ok res ∧
      res.data = race.results.map raceEntryOfResult ∧
      res.data.length = race.results.length ∧
      res.timings.map FastestLap.Rank = payloadFLRanks race ∧
      strictFrom1 (res.timings.map FastestLap.Rank) = true := by
  refine ⟨_, rfl, rfl, ?_, ?_, ?_⟩
  · exact List.length_map _ _
  · exact get_race_results_timings_ranks race
  · rw [get_race_results_timings_ranks race]
    exact h

/-- Witness for C2 amended at a payload whose ranks arrive in order. -/
theorem c2_race_results_amended_witness :
    ∃ res, get_race_results (some wRace) = Except.ok res ∧
      res.data = wRace.results.map raceEntryOfResult ∧
      res.data.length = wRace.results.length ∧
      res.timings.map FastestLap.Rank = payloadFLRanks wRace ∧
      strictFrom1 (res.timings.map FastestLap.Rank) = true :=
  c2_race_results_amended wRace (by decide)

/-- Claim C2, counterexample: a payload in which the winner holds fastest
lap rank 2 and the runner-up rank 1 yields `timings` with ranks `[2, 1]` —
not sorted strictly ascending starting at 1. -/
theorem c2_counterexample :
    ∃ res, get_race_results (some cexRace) = Except.ok res ∧
      res.timings.map FastestLap.Rank = [2, 1] ∧
      strictFrom1 (res.timings.map FastestLap.Rank) = false := by
  refine ⟨_, rfl, rfl, rfl⟩

/-- Claim C4: if any of the five sub-queries gathered by
`get_driver_career` raises `MissingDataError`, the whole aggregate call
fails with that same error — no partially-populated aggregate is
returned. -/
theorem c4_career_propagates_missing (env : FetchEnv)
    (h : get_driver_wins env.currentYear env.wins env.info =
           Except.error PyErr.missingData ∨
         get_driver_poles env.currentYear env.poles env.info =
           Except.error PyErr.missingData ∨
         get_driver_championships env.currentYear env.champs env.info =
           Except.error PyErr.missingData ∨
         get_driver_seasons env.seasons = Except.error PyErr.missingData ∨
         get_driver_teams env.teams = Except.error PyErr.missingData) :
    get_driver_career env = Except.error PyErr.missingData := by
  cases hw : get_driver_wins env.currentYear env.wins env.info with
  | error e =>
      rw [get_driver_wins_error env.currentYear env.wins env.info e hw] at hw
      simp only [get_driver_career, hw, except_bind_error]
  | ok w =>
      cases hp : get_driver_poles env.currentYear env.poles env.info with
      | error e =>
          rw [get_driver_poles_error env.currentYear env.poles env.info e hp] at hp
          simp only [get_driver_career, hw, hp, except_bind_ok, except_bind_error]
      | ok p =>
          cases hc : get_driver_championships env.currentYear env.champs env.info with
          | error e =>
              rw [get_driver_championships_error env.currentYear env.champs
                    env.info e hc] at hc
              simp only [get_driver_career, hw, hp, hc, except_bind_ok,
                except_bind_error]
          | ok c =>
              cases hs : get_driver_seasons env.seasons with
              | error e =>
                  rw [get_driver_seasons_error env.seasons e hs] at hs
                  simp only [get_driver_career, hw, hp, hc, hs, except_bind_ok,
                    except_bind_error]
              | ok s =>
                  cases ht : get_driver_teams env.teams with
                  | error e => exact absurd ht (get_driver_teams_no_error env.teams e)
                  | ok t =>
                      exfalso
                      rcases h with h1 | h1 | h1 | h1 | h1
                      · rw [hw] at h1; exact Except.noConfusion h1
                      · rw [hp] at h1; exact Except.noConfusion h1
                      · rw [hc] at h1; exact Except.noConfusion h1
                      · rw [hs] at h1; exact Except.noConfusion h1
                      · rw [ht] at h1; exact Except.noConfusion h1

/-- Witness for C4: a concrete environment where exactly the championships
sub-query sees a missing payload; the aggregate call raises. -/
theorem c4_career_propagates_missing_witness :
    get_driver_career wEnv = Except.error PyErr.missingData :=
  c4_career_propagates_missing wEnv (Or.inr (Or.inr (Or.inl rfl)))
